import Mathlib

/-!
# Verification of the temporal-sports-tracker core logic

Shallow embedding of the game-monitoring state machine and the collection
scheduler of the temporal-sports-tracker repository, together with proofs
and refutations of the specified properties.

Sources embedded:
- `game_workflow.go` : `GameWorkflow` (poll-iteration body), the notification
  builders (`buildScoreUpdateNotification`, `buildUnderdogNotification`,
  `buildOvertimeNotification`), `getPeriodStr`, `determineUnderdog`.
- `activities.go` : `GetGamesActivity`, `BuildGame`, and the per-channel
  dispatch loop of the workflow (lines 179-194 of `game_workflow.go`).
- `collect_games_workflow.go` : the spawn filter of `CollectGamesWorkflow`.

Go maps (`map[string]string`) are modelled as association lists read through
`mapGet?`; Go map assignment is `mapInsert` (same lookup semantics, stale
entries for the key removed). Go `time.Time` is modelled as `Int` (an absolute
instant); `t1.After(t2)` is `t2 < t1`. Go `int` is modelled as `Int`
(period counts are tiny, overflow is irrelevant). Go string comparison
(`<`, `>`) is byte-lexicographic on UTF-8, which coincides with Lean's
code-point-lexicographic `String` order, used here via `goStrGt`.
-/

/-- A `map[string]string` modelled as an association list; only its `mapGet?`
observations matter. -/
abbrev ScoreMap := List (String × String)

/-- Go map read `m[k]` (the `ok` form): first binding for `k`, if any. -/
def mapGet? (m : ScoreMap) (k : String) : Option String :=
  ((List.find? (fun kv => kv.1 == k) m)).map (fun kv => kv.2)

/-- Go map read `m[k]` without the `ok` flag: missing keys yield the zero
value `""`. -/
def mapGetD (m : ScoreMap) (k : String) : String :=
  (mapGet? m k).getD ""

/-- Go map assignment `m[k] = v`: same lookups as the Go map after the write. -/
def mapInsert (m : ScoreMap) (k v : String) : ScoreMap :=
  (k, v) :: List.filter (fun kv => !(kv.1 == k)) m

/-- `Team` (models.go): the fields read by the workflow code. Defaults are
the Go zero values. -/
structure Team where
  id : String := ""
  name : String := ""
  abbreviation : String := ""
  displayName : String := ""
  conferenceId : String := ""
  favorite : Bool := false
  underdog : Bool := false
  deriving DecidableEq

/-- `Game` (models.go, monitor-era version): the fields read or written by
`GameWorkflow`, `BuildGame` and `CollectGamesWorkflow`. `startTime` is an
absolute instant modelled as `Int`. -/
structure Game where
  id : String := ""
  homeTeam : Team := {}
  awayTeam : Team := {}
  startTime : Int := 0
  currentScore : ScoreMap := []
  status : String := ""
  odds : String := ""
  sport : String := ""
  numberOfPeriods : Int := 0
  currentPeriod : String := ""
  displayClock : String := ""
  tvNetwork : String := ""
  apiRoot : String := ""
  deriving DecidableEq

/-- `Notification` (models.go). -/
structure Notification where
  title : String := ""
  message : String := ""
  deriving DecidableEq

/-- Lexicographic comparison of character lists, mirroring Go's byte-wise
string comparison (UTF-8 byte order equals code-point order). -/
def goCharListLt : List Char → List Char → Bool
  | _, [] => false
  | [], _ :: _ => true
  | a :: as, b :: bs =>
    if a < b then true
    else if b < a then false
    else goCharListLt as bs

/-- Go string comparison `a > b`. -/
def goStrGt (a b : String) : Bool :=
  goCharListLt b.data a.data

/-- Decimal value of a digit character. -/
def digitVal (c : Char) : Nat :=
  c.toNat - 48

/-- Decimal value of a list of digit characters. -/
def decimalValue (cs : List Char) : Nat :=
  cs.foldl (fun acc c => acc * 10 + digitVal c) 0

/-- Go `strconv.Atoi`: optional sign followed by a non-empty run of digits;
anything else is an error (`none`). -/
def goAtoi (s : String) : Option Int :=
  match s.data with
  | [] => none
  | c :: cs =>
    if c == '-' then
      if cs ≠ [] ∧ cs.all (fun ch => ch.isDigit) then
        some (-(decimalValue cs : Int))
      else none
    else if c == '+' then
      if cs ≠ [] ∧ cs.all (fun ch => ch.isDigit) then
        some ((decimalValue cs : Int))
      else none
    else if (c :: cs).all (fun ch => ch.isDigit) then
      some ((decimalValue (c :: cs) : Int))
    else none

/-- `determineUnderdog` (game_workflow.go lines 292-299). -/
def determineUnderdog (game : Game) : String :=
  if game.homeTeam.underdog then game.homeTeam.displayName
  else if game.awayTeam.underdog then game.awayTeam.displayName
  else "No underdog."

/-- `getPeriodStr` (game_workflow.go lines 273-290). In the hockey branch a
period other than 1-3 falls through to the trailing quarter default, exactly
as the Go switch does. -/
def getPeriodStr (period : Int) (sport : String) : String :=
  if sport == "baseball" then "Inning " ++ toString period
  else if sport == "hockey" then
    if period == 1 then "1st Period"
    else if period == 2 then "2nd Period"
    else if period == 3 then "3rd Period"
    else "Q" ++ toString period
  else if sport == "soccer" then "Half " ++ toString period
  else "Q" ++ toString period

/-- `buildScoreUpdateNotification` (game_workflow.go lines 202-216). The
period string is computed from `game.NumberOfPeriods`, as in the source. -/
def buildScoreUpdateNotification (game : Game) : Notification :=
  { title := "Score Update!"
    message :=
      "\n" ++ game.homeTeam.displayName ++ " vs " ++ game.awayTeam.displayName ++
      "\nScore: " ++ game.homeTeam.abbreviation ++ " " ++
      mapGetD game.currentScore game.homeTeam.id ++ " - " ++
      game.awayTeam.abbreviation ++ " " ++
      mapGetD game.currentScore game.awayTeam.id ++ "\n" ++
      getPeriodStr game.numberOfPeriods game.sport ++ ", " ++
      game.displayClock ++ " left on " ++ game.tvNetwork }

/-- `buildUnderdogNotification` (game_workflow.go lines 218-232). -/
def buildUnderdogNotification (game : Game) (underdogTeam : String) : Notification :=
  { title := "Team Chaos!"
    message :=
      underdogTeam ++ " are winning in the " ++ game.homeTeam.displayName ++
      " vs. " ++ game.awayTeam.displayName ++ " game on " ++ game.tvNetwork ++
      "! It's currently " ++ getPeriodStr game.numberOfPeriods game.sport ++
      " with " ++ game.displayClock ++ " left. \nScore: " ++
      game.homeTeam.abbreviation ++ " " ++
      mapGetD game.currentScore game.homeTeam.id ++ " - " ++
      game.awayTeam.abbreviation ++ " " ++
      mapGetD game.currentScore game.awayTeam.id }

/-- The overtime-number switch of `buildOvertimeNotification`
(game_workflow.go lines 250-259); note the source's `"TRIPLE OT"` casing. -/
def overtimeLabel (overtimeNumber : Int) : String :=
  if overtimeNumber == 1 then "OT"
  else if overtimeNumber == 2 then "Double OT"
  else if overtimeNumber == 3 then "TRIPLE OT"
  else toString overtimeNumber ++ "th OT"

/-- `buildOvertimeNotification` (game_workflow.go lines 234-271). -/
def buildOvertimeNotification (game : Game) : Notification :=
  match goAtoi game.currentPeriod with
  | none =>
    { title := "Overtime!"
      message :=
        "The game between the " ++ game.homeTeam.displayName ++ " and the " ++
        game.awayTeam.displayName ++ " is in overtime on " ++ game.tvNetwork ++
        "!\nScore: " ++ game.homeTeam.abbreviation ++ " " ++
        mapGetD game.currentScore game.homeTeam.id ++ " - " ++
        game.awayTeam.abbreviation ++ " " ++
        mapGetD game.currentScore game.awayTeam.id }
  | some currentPeriod =>
    let overtimeStr := overtimeLabel (currentPeriod - game.numberOfPeriods)
    { title := overtimeStr ++ "!"
      message :=
        "The game between the " ++ game.homeTeam.displayName ++ " and the " ++
        game.awayTeam.displayName ++ " is in " ++ overtimeStr ++ " on " ++
        game.tvNetwork ++ "!\nScore: " ++ game.homeTeam.abbreviation ++ " " ++
        mapGetD game.currentScore game.homeTeam.id ++ " - " ++
        game.awayTeam.abbreviation ++ " " ++
        mapGetD game.currentScore game.awayTeam.id }

/-- The monitor's runtime configuration: the parsed `NOTIFICATION_TYPES`
environment value (game_workflow.go lines 58-64). -/
structure Config where
  types : List String := []

/-- One successful fetch result: the fields of the activity's `gameUpdate`
that the workflow reads (game_workflow.go lines 103-105). -/
structure GameUpdate where
  currentScore : ScoreMap := []
  currentPeriod : String := ""
  displayClock : String := ""
  deriving DecidableEq

/-- The monitor's per-game mutable state across poll iterations:
the `game` struct plus the loop-local variables `lastScores`,
`underdogWinning` and `lastOvertimePeriod` (game_workflow.go lines 74-84). -/
structure MonitorState where
  game : Game := {}
  lastScores : ScoreMap := []
  underdogWinning : Bool := false
  lastOvertimePeriod : Int := 0
  deriving DecidableEq

/-- State priming before the poll loop (game_workflow.go lines 74-84):
`lastScores` is a copy of the game's initial scores, `underdogWinning`
starts false, `lastOvertimePeriod` starts at the regulation period count. -/
def initState (game : Game) : MonitorState :=
  { game := game
    lastScores := List.foldl (fun acc kv => mapInsert acc kv.1 kv.2) [] game.currentScore
    underdogWinning := false
    lastOvertimePeriod := game.numberOfPeriods }

/-- Applying a fetched update to the game (game_workflow.go lines 103-105). -/
def applyUpdate (g : Game) (u : GameUpdate) : Game :=
  { g with currentScore := u.currentScore
           currentPeriod := u.currentPeriod
           displayClock := u.displayClock }

/-- The score-change detection loop (game_workflow.go lines 107-114):
true iff some current binding is absent from `lastScores` or bound to a
different score there. -/
def scoreChangedCheck (lastScores currScore : ScoreMap) : Bool :=
  currScore.any (fun kv =>
    match mapGet? lastScores kv.1 with
    | none => true
    | some lastScore => lastScore != kv.2)

/-- The new-overtime detection (game_workflow.go lines 117-123): a non-empty
period string that parses to a number strictly above `lastOvertimePeriod`. -/
def newOvertimeCheck (currentPeriod : String) (lastOvertimePeriod : Int) : Bool :=
  if currentPeriod == "" then false
  else
    match goAtoi currentPeriod with
    | some p => decide (lastOvertimePeriod < p)
    | none => false

/-- The `underdogWinning` update (game_workflow.go lines 136-148): recomputed
only when the score changed and the underdog category is enabled and a team
is marked underdog; scores are compared with Go string comparison. -/
def underdogWinningStep (game : Game) (types : List String) (scoreChanged old : Bool) : Bool :=
  if scoreChanged && types.contains "underdog" then
    if determineUnderdog game != "No underdog." then
      if goStrGt (mapGetD game.currentScore game.homeTeam.id)
          (mapGetD game.currentScore game.awayTeam.id) && game.homeTeam.underdog then
        true
      else if goStrGt (mapGetD game.currentScore game.awayTeam.id)
          (mapGetD game.currentScore game.homeTeam.id) && game.awayTeam.underdog then
        true
      else false
    else old
  else old

/-- The `lastScores` update loop (game_workflow.go lines 160-162). -/
def updateLastScores (lastScores currScore : ScoreMap) : ScoreMap :=
  currScore.foldl (fun acc kv => mapInsert acc kv.1 kv.2) lastScores

/-- The iteration's `notificationList` (game_workflow.go lines 125-176), in
the source's append order: score update, then underdog, then overtime.
`udW` is the post-update `underdogWinning` value. -/
def iterationNotifs (game : Game) (types : List String) (sc nOT udW : Bool) : List Notification :=
  (if sc && types.contains "score_change" then [buildScoreUpdateNotification game] else [])
    ++ (if sc && types.contains "underdog" && udW then
          [buildUnderdogNotification game (determineUnderdog game)] else [])
    ++ (if nOT && types.contains "overtime" then [buildOvertimeNotification game] else [])

/-- One poll iteration of the monitor loop (game_workflow.go lines 96-194).
A failed fetch (`none`) logs and `continue`s: no state change, no
notifications. On success the game's mutable fields are updated, change
detection runs, the notification list is built and the trackers advance
(`lastScores` only when the score changed, `lastOvertimePeriod` only when an
overtime notification was produced). -/
def pollIteration (cfg : Config) (st : MonitorState) (poll : Option GameUpdate) :
    MonitorState × List Notification :=
  match poll with
  | none => (st, [])
  | some upd =>
    let game := applyUpdate st.game upd
    let sc := scoreChangedCheck st.lastScores game.currentScore
    let nOT := newOvertimeCheck game.currentPeriod st.lastOvertimePeriod
    let udW := underdogWinningStep game cfg.types sc st.underdogWinning
    ({ game := game
       lastScores := if sc then updateLastScores st.lastScores game.currentScore
                     else st.lastScores
       underdogWinning := udW
       lastOvertimePeriod :=
         if nOT && cfg.types.contains "overtime" then
           (goAtoi game.currentPeriod).getD st.lastOvertimePeriod
         else st.lastOvertimePeriod },
     iterationNotifs game cfg.types sc nOT udW)

/-- The monitor loop over a finite horizon of polls: the final state and the
per-iteration notification lists, in order. -/
def runMonitor (cfg : Config) (st : MonitorState) :
    List (Option GameUpdate) → MonitorState × List (List Notification)
  | [] => (st, [])
  | poll :: rest =>
    let r := pollIteration cfg st poll
    let rr := runMonitor cfg r.1 rest
    (rr.1, r.2 :: rr.2)

/-- The parsed periods of the iterations on which an overtime notification is
produced, over a run of the monitor. -/
def overtimeFirings (cfg : Config) : MonitorState → List (Option GameUpdate) → List Int
  | _, [] => []
  | st, none :: rest => overtimeFirings cfg (pollIteration cfg st none).1 rest
  | st, some upd :: rest =>
    if newOvertimeCheck upd.currentPeriod st.lastOvertimePeriod
        && cfg.types.contains "overtime" then
      (goAtoi upd.currentPeriod).getD st.lastOvertimePeriod ::
        overtimeFirings cfg (pollIteration cfg st (some upd)).1 rest
    else overtimeFirings cfg (pollIteration cfg st (some upd)).1 rest

/-- The per-channel dispatch attempts (game_workflow.go lines 182-193): each
configured channel is visited in order; the activity outcome for a channel
(`fails ch notifs = true` meaning the send activity returned an error) is
only logged and never alters the control flow. -/
def attemptChannels (notificationList : List Notification)
    (fails : String → List Notification → Bool) :
    List String → List (String × Bool)
  | [] => []
  | ch :: rest =>
    (ch, fails ch notificationList) :: attemptChannels notificationList fails rest

/-- The dispatch block of one poll iteration (game_workflow.go lines
179-194): channels are attempted only when the notification list is
non-empty; the result records, per channel in order, whether that channel's
send failed. -/
def dispatchBlock (channels : List String) (notificationList : List Notification)
    (fails : String → List Notification → Bool) : List (String × Bool) :=
  if 0 < notificationList.length then attemptChannels notificationList fails channels
  else []

/-- `TeamOdds` (models.go). -/
structure TeamOdds where
  favorite : Bool := false
  underdog : Bool := false
  deriving DecidableEq

/-- `Odd` (models.go): the fields `BuildGame` reads. Named `GameOdd` here
because `Odd` is taken by Mathlib's parity predicate. -/
structure GameOdd where
  details : String := ""
  homeTeamOdds : TeamOdds := {}
  awayTeamOdds : TeamOdds := {}
  deriving DecidableEq

/-- `Broadcast`: the broadcast entries of a competition (name only). -/
structure Broadcast where
  name : String := ""
  deriving DecidableEq

/-- `StatusType` (models.go): the `state` field read by `BuildGame`. -/
structure StatusType where
  state : String := ""
  deriving DecidableEq

/-- `Status` (models.go): only the nested type state is read by `BuildGame`. -/
structure Status where
  type : StatusType := {}
  deriving DecidableEq

/-- `Competitor` (models.go). -/
structure Competitor where
  team : Team := {}
  score : String := ""
  homeAway : String := ""
  deriving DecidableEq

/-- `Competition` (models.go): the fields read by `GetGamesActivity` and
`BuildGame`; the competition date is the game's start instant. -/
structure Competition where
  id : String := ""
  date : Int := 0
  competitors : List Competitor := []
  odds : List GameOdd := []
  status : Status := {}
  broadcasts : List Broadcast := []
  deriving DecidableEq

/-- `Event` (models.go): the competitions list read by `GetGamesActivity`. -/
structure Event where
  competitions : List Competition := []
  deriving DecidableEq

/-- `BuildGame` (activities.go lines 142-178). -/
def buildGame (comp : Competition) (homeTeam awayTeam : Competitor)
    (apiRoot : String) : Game :=
  let base : Game :=
    { id := comp.id
      startTime := comp.date
      status := comp.status.type.state
      apiRoot := apiRoot
      currentScore := [] }
  let withTeams :=
    if homeTeam.homeAway == "home" then
      { base with homeTeam := homeTeam.team
                  awayTeam := awayTeam.team
                  currentScore :=
                    mapInsert (mapInsert base.currentScore homeTeam.team.id homeTeam.score)
                      awayTeam.team.id awayTeam.score }
    else
      { base with homeTeam := awayTeam.team
                  awayTeam := homeTeam.team
                  currentScore :=
                    mapInsert (mapInsert base.currentScore awayTeam.team.id awayTeam.score)
                      homeTeam.team.id homeTeam.score }
  let withOdds :=
    match comp.odds with
    | firstOdd :: _ =>
      { withTeams with
          odds := firstOdd.details
          homeTeam := { withTeams.homeTeam with
                          favorite := firstOdd.homeTeamOdds.favorite
                          underdog := firstOdd.homeTeamOdds.underdog }
          awayTeam := { withTeams.awayTeam with
                          favorite := firstOdd.awayTeamOdds.favorite
                          underdog := firstOdd.awayTeamOdds.underdog } }
    | [] => withTeams
  match comp.broadcasts with
  | b :: _ => { withOdds with tvNetwork := b.name }
  | [] => withOdds

/-- The per-conference event-processing loop of `GetGamesActivity`
(activities.go lines 82-95): every event whose first competition has at
least two competitors contributes one game, appended in order. -/
def eventGames (events : List Event) (apiRoot : String) : List Game :=
  events.foldl (fun games event =>
    match event.competitions with
    | [] => games
    | comp :: _ =>
      match comp.competitors with
      | c0 :: c1 :: _ => games ++ [buildGame comp c0 c1 apiRoot]
      | _ => games) []

/-- The team-filtered event-processing loop of `GetGamesActivity`
(activities.go lines 117-134): like `eventGames` but keeping only events in
which one of the first two competitors' team ids was requested. -/
def eventGamesFiltered (events : List Event) (teams : List String)
    (apiRoot : String) : List Game :=
  events.foldl (fun games event =>
    match event.competitions with
    | [] => games
    | comp :: _ =>
      match comp.competitors with
      | c0 :: c1 :: _ =>
        if teams.contains c0.team.id || teams.contains c1.team.id then
          games ++ [buildGame comp c0 c1 apiRoot]
        else games
      | _ => games) []

/-- `TrackingRequest` (models.go). -/
structure TrackingRequest where
  sport : String := ""
  league : String := ""
  teams : List String := []
  conferences : List String := []
  deriving DecidableEq

/-- `GetGamesActivity` (activities.go lines 51-139) on the success path,
with the upstream fetches abstracted as oracles: `confFetch c` is the parsed
event list of the per-conference scoreboard call, `scoreboardEvents` that of
the unfiltered scoreboard call. The per-conference results and then the
team-filtered results are accumulated by plain appending. -/
def getGamesActivity (req : TrackingRequest) (confFetch : String → List Event)
    (scoreboardEvents : List Event) : List Game :=
  let apiRoot :=
    "https://site.api.espn.com/apis/site/v2/sports/" ++ req.sport ++ "/" ++ req.league
  let games : List Game :=
    if 0 < req.conferences.length then
      req.conferences.foldl (fun gs conf => gs ++ eventGames (confFetch conf) apiRoot) []
    else []
  if 0 < req.teams.length then games ++ eventGamesFiltered scoreboardEvents req.teams apiRoot
  else games

/-- The spawn loop of `CollectGamesWorkflow` (collect_games_workflow.go
lines 39-48): of the fetched games, exactly those with status `"pre"` (the
spec's `scheduled`) and a start time strictly after now are spawned, in
order. -/
def collectGamesSpawned (games : List Game) (now : Int) : List Game :=
  games.foldl (fun spawned g =>
    if g.status == "pre" && decide (now < g.startTime) then spawned ++ [g]
    else spawned) []

section MapLemmas

lemma mapGet?_insert_self (m : ScoreMap) (k v : String) :
    mapGet? (mapInsert m k v) k = some v := by
  simp [mapGet?, mapInsert, List.find?_cons_of_pos]

lemma find?_filter_ne (m : ScoreMap) {k kq : String} (h : kq ≠ k) :
    List.find? (fun kv => kv.1 == kq) (List.filter (fun kv => !(kv.1 == k)) m)
      = List.find? (fun kv => kv.1 == kq) m := by
  induction m with
  | nil => rfl
  | cons head tail ih =>
    by_cases hk : head.1 = k
    · have hfilter : List.filter (fun kv => !(kv.1 == k)) (head :: tail)
          = List.filter (fun kv => !(kv.1 == k)) tail := by
        simp [List.filter_cons, hk]
      have hq : (head.1 == kq) = false := by simp [hk, Ne.symm h]
      rw [hfilter, ih, List.find?_cons_of_neg _ (by simp [hq])]
    · have hfilter : List.filter (fun kv => !(kv.1 == k)) (head :: tail)
          = head :: List.filter (fun kv => !(kv.1 == k)) tail := by
        simp [List.filter_cons, hk]
      rw [hfilter]
      by_cases hq : head.1 = kq
      · rw [List.find?_cons_of_pos _ (by simp [hq]), List.find?_cons_of_pos _ (by simp [hq])]
      · rw [List.find?_cons_of_neg _ (by simp [hq]), List.find?_cons_of_neg _ (by simp [hq]), ih]

lemma mapGet?_insert_ne (m : ScoreMap) {k kq : String} (h : kq ≠ k) (v : String) :
    mapGet? (mapInsert m k v) kq = mapGet? m kq := by
  have hq : ((k, v).1 == kq) = false := by simp [Ne.symm h]
  simp only [mapGet?, mapInsert]
  rw [List.find?_cons_of_neg _ (by simp [Ne.symm h]), find?_filter_ne _ h]

lemma mapGet?_eq_none_iff (m : ScoreMap) (k : String) :
    mapGet? m k = none ↔ ∀ kv ∈ m, kv.1 ≠ k := by
  simp [mapGet?, List.find?_eq_none]

lemma mapGet?_eq_some_mem {m : ScoreMap} {k v : String}
    (h : mapGet? m k = some v) : (k, v) ∈ m := by
  simp only [mapGet?, Option.map_eq_some'] at h
  obtain ⟨kv, hfind, hv⟩ := h
  have hmem := List.mem_of_find?_eq_some hfind
  have hkey : kv.1 = k := by simpa using List.find?_some hfind
  have hkv : kv = (k, v) := by
    obtain ⟨k1, v1⟩ := kv
    simp_all
  rwa [hkv] at hmem

lemma mapGet?_of_mem_nodup {m : ScoreMap} (hnd : (m.map Prod.fst).Nodup)
    {k v : String} (hmem : (k, v) ∈ m) : mapGet? m k = some v := by
  induction m with
  | nil => cases hmem
  | cons head tail ih =>
    have hnd' : (∀ x, (head.1, x) ∉ tail) ∧ (tail.map Prod.fst).Nodup := by
      simpa [List.map_cons] using hnd
    rcases List.mem_cons.mp hmem with heq | htail
    · subst heq
      simp [mapGet?, List.find?_cons_of_pos]
    · have hkey : head.1 ≠ k := by
        intro hk
        exact hnd'.1 v (by rw [hk]; exact htail)
      simp only [mapGet?] at ih ⊢
      rw [List.find?_cons_of_neg _ (by simp [hkey])]
      exact ih hnd'.2 htail

lemma updateLastScores_nil (prev : ScoreMap) : updateLastScores prev [] = prev := rfl

lemma updateLastScores_cons (prev : ScoreMap) (k v : String) (rest : ScoreMap) :
    updateLastScores prev ((k, v) :: rest) = updateLastScores (mapInsert prev k v) rest := rfl

lemma mapGet?_update_notmem {curr : ScoreMap} {k : String}
    (h : ∀ kv ∈ curr, kv.1 ≠ k) : ∀ prev : ScoreMap,
    mapGet? (updateLastScores prev curr) k = mapGet? prev k := by
  induction curr with
  | nil => intro prev; rfl
  | cons head tail ih =>
    intro prev
    obtain ⟨k0, v0⟩ := head
    rw [updateLastScores_cons]
    rw [ih (fun kv hkv => h kv (List.mem_cons_of_mem _ hkv))]
    exact mapGet?_insert_ne prev (Ne.symm (h (k0, v0) (List.mem_cons_self _ _))) v0

lemma mapGet?_update_mem {curr : ScoreMap} (hnd : (curr.map Prod.fst).Nodup)
    {k v : String} (hmem : (k, v) ∈ curr) : ∀ prev : ScoreMap,
    mapGet? (updateLastScores prev curr) k = some v := by
  induction curr with
  | nil => cases hmem
  | cons head tail ih =>
    intro prev
    obtain ⟨k0, v0⟩ := head
    rw [updateLastScores_cons]
    have hnd' : (∀ x, (k0, x) ∉ tail) ∧ (tail.map Prod.fst).Nodup := by
      simpa [List.map_cons] using hnd
    rcases List.mem_cons.mp hmem with heq | htail
    · have hk : k0 = k ∧ v0 = v := by simpa [Prod.ext_iff] using heq.symm
      obtain ⟨hk0, hv0⟩ := hk
      subst hk0; subst hv0
      have hnot : ∀ kv ∈ tail, kv.1 ≠ k0 := by
        intro kv hkv hk
        obtain ⟨a, b⟩ := kv
        exact hnd'.1 b (by simpa [← hk] using hkv)
      rw [mapGet?_update_notmem hnot, mapGet?_insert_self]
    · exact ih hnd'.2 htail _

end MapLemmas

section FoldLemmas

lemma foldl_append_acc {α β : Type} (h : α → List β) :
    ∀ (l : List α) (acc : List β),
      l.foldl (fun gs c => gs ++ h c) acc = acc ++ l.flatMap h
  | [], acc => by simp
  | c :: l, acc => by
    rw [List.foldl_cons, foldl_append_acc h l (acc ++ h c)]
    simp [List.flatMap_cons, List.append_assoc]

lemma foldl_filter_acc {α : Type} (p : α → Bool) :
    ∀ (l : List α) (acc : List α),
      l.foldl (fun acc g => if p g then acc ++ [g] else acc) acc = acc ++ l.filter p
  | [], acc => by simp
  | g :: l, acc => by
    rw [List.foldl_cons]
    by_cases hp : p g
    · rw [if_pos hp, foldl_filter_acc p l (acc ++ [g])]
      simp [List.filter_cons, hp]
    · rw [if_neg hp, foldl_filter_acc p l acc]
      simp [List.filter_cons, hp]

end FoldLemmas

lemma attemptChannels_map_fst (nl : List Notification)
    (fails : String → List Notification → Bool) :
    ∀ channels : List String, (attemptChannels nl fails channels).map Prod.fst = channels
  | [] => rfl
  | ch :: rest => by
    simp [attemptChannels, attemptChannels_map_fst nl fails rest]

lemma attemptChannels_mem (nl : List Notification)
    (fails : String → List Notification → Bool) :
    ∀ channels : List String, ∀ ch ∈ channels,
      (ch, fails ch nl) ∈ attemptChannels nl fails channels
  | [], ch, h => absurd h (List.not_mem_nil ch)
  | c :: rest, ch, h => by
    rcases List.mem_cons.mp h with heq | htail
    · subst heq
      exact List.mem_cons_self _ _
    · exact List.mem_cons_of_mem _ (attemptChannels_mem nl fails rest ch htail)

/-- C6: the Collection Scheduler spawns a monitor exactly for the fetched
games whose status is `"pre"` (the spec's `scheduled`) and whose start time
is strictly after the current instant; in particular a `"pre"` game starting
2 hours (7200 s) in the future is in the spawn set and a game starting
1 hour (3600 s) in the past is not, even with status `"pre"`. -/
theorem collectSchedulerSpawnSet (games : List Game) (now : Int) (g : Game) :
    g ∈ collectGamesSpawned games now
      ↔ g ∈ games ∧ g.status = "pre" ∧ now < g.startTime := by
  unfold collectGamesSpawned
  rw [foldl_filter_acc]
  simp [List.mem_filter, and_assoc]

/-- Witness for C6 at the claim's concrete instants: with `now = 0`, a
scheduled game starting at `+7200` is spawned and one that started at
`-3600` is not. -/
theorem collectSchedulerSpawnSetWitness :
    ({ id := "future", status := "pre", startTime := 7200 } : Game) ∈
      collectGamesSpawned [{ id := "future", status := "pre", startTime := 7200 },
        { id := "past", status := "pre", startTime := -3600 }] 0 ∧
    ({ id := "past", status := "pre", startTime := -3600 } : Game) ∉
      collectGamesSpawned [{ id := "future", status := "pre", startTime := 7200 },
        { id := "past", status := "pre", startTime := -3600 }] 0 := by
  constructor
  · exact (collectSchedulerSpawnSet _ 0 _).mpr
      ⟨List.mem_cons_self _ _, rfl, by decide⟩
  · intro hmem
    exact absurd ((collectSchedulerSpawnSet _ 0 _).mp hmem).2.2 (by decide)

/-- C7: a failed fetch changes nothing: the poll iteration on a fetch error
returns the state unchanged (game fields, last scores, last overtime period
and underdog flag included) with no notifications, and the monitor proceeds
to the remaining iterations of the run. -/
theorem failedFetchSkipsIteration (cfg : Config) (st : MonitorState)
    (rest : List (Option GameUpdate)) :
    (pollIteration cfg st none).1 = st ∧
    (pollIteration cfg st none).2 = [] ∧
    runMonitor cfg st (none :: rest)
      = ((runMonitor cfg st rest).1, [] :: (runMonitor cfg st rest).2) :=
  ⟨rfl, rfl, rfl⟩

/-- C8: with a non-empty notification list, the dispatch block attempts
every configured channel in order — the recorded attempts project to exactly
the channel list — and each channel's attempt carries its own outcome, so a
failure on one channel never removes a later channel's attempt, and the
block always returns (the iteration does not fail). -/
theorem dispatchAttemptsAllChannels (channels : List String)
    (notificationList : List Notification)
    (fails : String → List Notification → Bool)
    (hne : 0 < notificationList.length) :
    (dispatchBlock channels notificationList fails).map Prod.fst = channels ∧
    ∀ ch ∈ channels,
      (ch, fails ch notificationList) ∈ dispatchBlock channels notificationList fails := by
  unfold dispatchBlock
  rw [if_pos hne]
  exact ⟨attemptChannels_map_fst _ _ _, attemptChannels_mem _ _ _⟩

/-- Witness for C8: a failure on `webhookA` does not prevent the attempt on
`logger` in the same iteration. -/
theorem dispatchAttemptsAllChannelsWitness :
    (dispatchBlock ["webhookA", "logger"] [{ title := "t", message := "m" }]
        (fun ch _ => ch == "webhookA")).map Prod.fst = ["webhookA", "logger"] ∧
    ("logger", false) ∈ dispatchBlock ["webhookA", "logger"]
        [{ title := "t", message := "m" }] (fun ch _ => ch == "webhookA") := by
  have h := dispatchAttemptsAllChannels ["webhookA", "logger"]
    [{ title := "t", message := "m" }] (fun ch _ => ch == "webhookA") (by decide)
  refine ⟨h.1, ?_⟩
  simpa using h.2 "logger" (by simp)

/-- C10: both the score-update and underdog builders render the period text
from the fixed `NumberOfPeriods` (via `getPeriodStr`), not from
`CurrentPeriod`: changing only `CurrentPeriod` leaves both notifications
unchanged, and each message decomposes around
`getPeriodStr numberOfPeriods sport`. -/
theorem periodTextUsesRegulationPeriods (g : Game) (p teamName : String) :
    buildScoreUpdateNotification { g with currentPeriod := p }
        = buildScoreUpdateNotification g ∧
    buildUnderdogNotification { g with currentPeriod := p } teamName
        = buildUnderdogNotification g teamName ∧
    (∃ pre post, (buildScoreUpdateNotification g).message
        = pre ++ (getPeriodStr g.numberOfPeriods g.sport ++ post)) ∧
    (∃ pre post, (buildUnderdogNotification g teamName).message
        = pre ++ (getPeriodStr g.numberOfPeriods g.sport ++ post)) := by
  refine ⟨rfl, rfl, ?_, ?_⟩
  · refine ⟨"\n" ++ g.homeTeam.displayName ++ " vs " ++ g.awayTeam.displayName ++
      "\nScore: " ++ g.homeTeam.abbreviation ++ " " ++
      mapGetD g.currentScore g.homeTeam.id ++ " - " ++
      g.awayTeam.abbreviation ++ " " ++
      mapGetD g.currentScore g.awayTeam.id ++ "\n",
      ", " ++ g.displayClock ++ " left on " ++ g.tvNetwork, ?_⟩
    simp [buildScoreUpdateNotification, String.append_assoc]
  · refine ⟨teamName ++ " are winning in the " ++ g.homeTeam.displayName ++
      " vs. " ++ g.awayTeam.displayName ++ " game on " ++ g.tvNetwork ++
      "! It's currently ",
      " with " ++ g.displayClock ++ " left. \nScore: " ++
      g.homeTeam.abbreviation ++ " " ++
      mapGetD g.currentScore g.homeTeam.id ++ " - " ++
      g.awayTeam.abbreviation ++ " " ++
      mapGetD g.currentScore g.awayTeam.id, ?_⟩
    simp [buildUnderdogNotification, String.append_assoc]

/-- A concrete upstream event for the C5 counterexample: one competition
with id `"g1"` and two competitors. -/
def eventC5 : Event :=
  { competitions :=
      [{ id := "g1"
         competitors :=
           [{ team := { id := "h1" }, score := "0", homeAway := "home" },
            { team := { id := "a1" }, score := "0", homeAway := "away" }] }] }

/-- A concrete tracking request for the C5 counterexample: two conferences,
no teams. -/
def reqC5 : TrackingRequest :=
  { sport := "football", league := "college-football", conferences := ["a", "b"] }

/-- C5 counterexample: with two requested conferences whose fetches return
the same event (game id `"g1"`), the accumulated list contains the id
twice — the fetch-games operation does not deduplicate. -/
theorem getGamesDuplicateIds :
    ((getGamesActivity reqC5 (fun _ => [eventC5]) []).map (fun g => g.id))
        = ["g1", "g1"] ∧
    ¬ (((getGamesActivity reqC5 (fun _ => [eventC5]) []).map (fun g => g.id)).Nodup) := by
  refine ⟨rfl, ?_⟩
  intro h
  rw [show ((getGamesActivity reqC5 (fun _ => [eventC5]) []).map (fun g => g.id))
      = ["g1", "g1"] from rfl] at h
  exact (by decide : ¬ (["g1", "g1"] : List String).Nodup) h

/-- C5 amended: the game list accumulated by the fetch-games operation is
the plain concatenation of the per-conference results and (when teams were
requested) the team-filtered results; nothing is deduplicated, so a game
appearing in several fetches appears once per occurrence. (Duplicate
monitors are prevented later, at spawn time, by the deterministic
workflow identity, not here.) -/
theorem getGamesAccumulatesWithoutDedup (req : TrackingRequest)
    (confFetch : String → List Event) (scoreboardEvents : List Event) :
    getGamesActivity req confFetch scoreboardEvents
      = (req.conferences.flatMap (fun conf =>
          eventGames (confFetch conf)
            ("https://site.api.espn.com/apis/site/v2/sports/" ++ req.sport ++ "/" ++ req.league)))
        ++ (if 0 < req.teams.length then
              eventGamesFiltered scoreboardEvents req.teams
                ("https://site.api.espn.com/apis/site/v2/sports/" ++ req.sport ++ "/" ++ req.league)
            else []) := by
  simp only [getGamesActivity]
  by_cases hc : 0 < req.conferences.length
  · rw [if_pos hc, foldl_append_acc, List.nil_append]
    by_cases ht : 0 < req.teams.length
    · rw [if_pos ht, if_pos ht]
    · rw [if_neg ht, if_neg ht, List.append_nil]
  · rw [if_neg hc]
    have h0 : req.conferences = [] := by
      have : req.conferences.length = 0 := by omega
      exact List.length_eq_zero.mp this
    rw [h0]
    by_cases ht : 0 < req.teams.length
    · rw [if_pos ht, if_pos ht, List.flatMap_nil, List.nil_append]
    · rw [if_neg ht, if_neg ht, List.flatMap_nil, List.nil_append]

lemma scoreChangedCheck_iff (prev curr : ScoreMap) :
    scoreChangedCheck prev curr = true
      ↔ ∃ kv ∈ curr, mapGet? prev kv.1 ≠ some kv.2 := by
  unfold scoreChangedCheck
  rw [List.any_eq_true]
  constructor
  · rintro ⟨kv, hmem, hkv⟩
    refine ⟨kv, hmem, ?_⟩
    cases h : mapGet? prev kv.1 with
    | none => exact fun hcontra => by cases hcontra
    | some s =>
      rw [h] at hkv
      simp only [bne_iff_ne] at hkv
      exact fun hcontra => hkv (Option.some.inj (h ▸ hcontra))
  · rintro ⟨kv, hmem, hne⟩
    refine ⟨kv, hmem, ?_⟩
    cases h : mapGet? prev kv.1 with
    | none => rfl
    | some s =>
      rw [h] at hne
      exact bne_iff_ne.mpr (fun heq => hne (by rw [heq]))

/-- C2 counterexample: when the baseline holds a team id absent from the
current observation, the detection fires but the retained last-known scores
do not equal the observation — the stale binding for `"t2"` survives the
update, so the final conjunct of the claim fails for this pair of maps. -/
theorem scoreUpdateRetainsStaleKey :
    scoreChangedCheck [("t1", "3"), ("t2", "0")] [("t1", "7")] = true ∧
    mapGet? (updateLastScores [("t1", "3"), ("t2", "0")] [("t1", "7")]) "t2"
      ≠ mapGet? [("t1", "7")] "t2" ∧
    ¬ (∀ k, mapGet? (updateLastScores [("t1", "3"), ("t2", "0")] [("t1", "7")]) k
          = mapGet? [("t1", "7")] k) :=
  ⟨by decide, by decide, fun h => absurd (h "t2") (by decide)⟩

/-- C2 amended: for maps with distinct team ids, detection fires iff some
current binding differs from or is absent in the baseline; identical
observations never fire; after an update the retained scores agree with the
observation on every observed team id; and they equal the observation
(pointwise) whenever every baseline team id is still observed — stale
baseline-only keys, however, are retained, not deleted. -/
theorem scoreChangeDetectionAmended (prev curr : ScoreMap)
    (hnd : (curr.map Prod.fst).Nodup) :
    (scoreChangedCheck prev curr = true
        ↔ ∃ kv ∈ curr, mapGet? prev kv.1 ≠ some kv.2) ∧
    scoreChangedCheck curr curr = false ∧
    (∀ kv ∈ curr, mapGet? (updateLastScores prev curr) kv.1 = some kv.2) ∧
    ((∀ k, (mapGet? prev k).isSome = true → (mapGet? curr k).isSome = true) →
      ∀ k, mapGet? (updateLastScores prev curr) k = mapGet? curr k) := by
  refine ⟨scoreChangedCheck_iff prev curr, ?_, ?_, ?_⟩
  · cases hsc : scoreChangedCheck curr curr with
    | false => rfl
    | true =>
      exfalso
      obtain ⟨kv, hmem, hne⟩ := (scoreChangedCheck_iff curr curr).mp hsc
      obtain ⟨a, b⟩ := kv
      exact hne (mapGet?_of_mem_nodup hnd hmem)
  · intro kv hmem
    obtain ⟨a, b⟩ := kv
    exact mapGet?_update_mem hnd hmem prev
  · intro hsub k
    cases hc : mapGet? curr k with
    | some v =>
      rw [mapGet?_update_mem hnd (mapGet?_eq_some_mem hc) prev]
    | none =>
      have hnone : ∀ kv ∈ curr, kv.1 ≠ k := (mapGet?_eq_none_iff curr k).mp hc
      rw [mapGet?_update_notmem hnone prev]
      cases hp : mapGet? prev k with
      | none => rfl
      | some v =>
        exfalso
        have hs := hsub k (by rw [hp]; rfl)
        rw [hc] at hs
        cases hs

/-- Witness for C2 at the spec's example pair: baseline scores
`{130: 0, 264: 0}` against observation `{130: 7, 264: 0}`. -/
theorem scoreChangeDetectionAmendedWitness :
    (scoreChangedCheck [("130", "0"), ("264", "0")] [("130", "7"), ("264", "0")] = true
        ↔ ∃ kv ∈ ([("130", "7"), ("264", "0")] : ScoreMap),
            mapGet? [("130", "0"), ("264", "0")] kv.1 ≠ some kv.2) ∧
    scoreChangedCheck [("130", "7"), ("264", "0")] [("130", "7"), ("264", "0")] = false ∧
    (∀ kv ∈ ([("130", "7"), ("264", "0")] : ScoreMap),
        mapGet? (updateLastScores [("130", "0"), ("264", "0")]
          [("130", "7"), ("264", "0")]) kv.1 = some kv.2) ∧
    ((∀ k, (mapGet? [("130", "0"), ("264", "0")] k).isSome = true →
          (mapGet? [("130", "7"), ("264", "0")] k).isSome = true) →
      ∀ k, mapGet? (updateLastScores [("130", "0"), ("264", "0")]
            [("130", "7"), ("264", "0")]) k
          = mapGet? [("130", "7"), ("264", "0")] k) :=
  scoreChangeDetectionAmended [("130", "0"), ("264", "0")]
    [("130", "7"), ("264", "0")] (by decide)

lemma newOvertimeCheck_true {s : String} {l : Int}
    (h : newOvertimeCheck s l = true) : ∃ p, goAtoi s = some p ∧ l < p := by
  unfold newOvertimeCheck at h
  by_cases he : (s == "") = true
  · rw [if_pos he] at h
    cases h
  · rw [if_neg he] at h
    cases hg : goAtoi s with
    | none => rw [hg] at h; cases h
    | some p =>
      rw [hg] at h
      exact ⟨p, rfl, of_decide_eq_true h⟩

lemma pollIteration_lastOT (cfg : Config) (st : MonitorState) (upd : GameUpdate) :
    (pollIteration cfg st (some upd)).1.lastOvertimePeriod
      = if newOvertimeCheck upd.currentPeriod st.lastOvertimePeriod
            && cfg.types.contains "overtime" then
          (goAtoi upd.currentPeriod).getD st.lastOvertimePeriod
        else st.lastOvertimePeriod := rfl

lemma overtimeFirings_chain (cfg : Config) :
    ∀ (polls : List (Option GameUpdate)) (st : MonitorState),
      List.Chain (fun a b : Int => a < b) st.lastOvertimePeriod
        (overtimeFirings cfg st polls)
  | [], _ => List.Chain.nil
  | none :: rest, st => by
    have hrw : overtimeFirings cfg st (none :: rest) = overtimeFirings cfg st rest := rfl
    rw [hrw]
    exact overtimeFirings_chain cfg rest st
  | some upd :: rest, st => by
    have hrw : overtimeFirings cfg st (some upd :: rest)
        = if newOvertimeCheck upd.currentPeriod st.lastOvertimePeriod
              && cfg.types.contains "overtime" then
            (goAtoi upd.currentPeriod).getD st.lastOvertimePeriod
              :: overtimeFirings cfg (pollIteration cfg st (some upd)).1 rest
          else overtimeFirings cfg (pollIteration cfg st (some upd)).1 rest := rfl
    by_cases hf : (newOvertimeCheck upd.currentPeriod st.lastOvertimePeriod
        && cfg.types.contains "overtime") = true
    · have hno : newOvertimeCheck upd.currentPeriod st.lastOvertimePeriod = true := by
        cases h2 : newOvertimeCheck upd.currentPeriod st.lastOvertimePeriod with
        | true => rfl
        | false => rw [h2] at hf; cases hf
      obtain ⟨p, hp, hlt⟩ := newOvertimeCheck_true hno
      have hst : (pollIteration cfg st (some upd)).1.lastOvertimePeriod = p := by
        rw [pollIteration_lastOT, if_pos hf, hp]
        rfl
      rw [hrw, if_pos hf, hp]
      exact List.Chain.cons hlt (hst ▸ overtimeFirings_chain cfg rest _)
    · have hst : (pollIteration cfg st (some upd)).1.lastOvertimePeriod
          = st.lastOvertimePeriod := by
        rw [pollIteration_lastOT, if_neg hf]
      rw [hrw, if_neg hf]
      exact hst ▸ overtimeFirings_chain cfg rest _

/-- C3: with the overtime category enabled and a numeric current period `p`,
the overtime notification fires on an iteration iff
`p > regulationPeriods ∧ p > lastOvertimePeriod` (the two are equivalent
because `lastOvertimePeriod` starts at the regulation count and only
advances); on fire the tracker advances to `p`, otherwise it is unchanged;
and over any run the fired periods are strictly increasing from the
regulation count — so each period number above regulation fires at most
once, and re-observing the same period never refires. -/
theorem overtimeEdgeTrigger (cfg : Config)
    (hot : cfg.types.contains "overtime" = true)
    (st : MonitorState) (upd : GameUpdate) (p : Int)
    (hp : goAtoi upd.currentPeriod = some p)
    (hinv : st.game.numberOfPeriods ≤ st.lastOvertimePeriod) :
    ((newOvertimeCheck upd.currentPeriod st.lastOvertimePeriod
        && cfg.types.contains "overtime") = true
      ↔ st.game.numberOfPeriods < p ∧ st.lastOvertimePeriod < p) ∧
    ((pollIteration cfg st (some upd)).1.lastOvertimePeriod
      = if newOvertimeCheck upd.currentPeriod st.lastOvertimePeriod
            && cfg.types.contains "overtime" then p
        else st.lastOvertimePeriod) ∧
    (∀ game : Game, (initState game).lastOvertimePeriod = game.numberOfPeriods) ∧
    (∀ (game : Game) (polls : List (Option GameUpdate)),
      List.Chain (fun a b : Int => a < b) game.numberOfPeriods
        (overtimeFirings cfg (initState game) polls) ∧
      (overtimeFirings cfg (initState game) polls).Nodup) := by
  have hne : (upd.currentPeriod == "") = false := by
    cases he : (upd.currentPeriod == "") with
    | false => rfl
    | true =>
      exfalso
      rw [eq_of_beq he] at hp
      cases hp
  refine ⟨?_, ?_, fun _ => rfl, ?_⟩
  · rw [hot, Bool.and_true]
    unfold newOvertimeCheck
    rw [if_neg (by rw [hne]; exact Bool.false_ne_true), hp]
    constructor
    · intro h
      have hlt := of_decide_eq_true h
      exact ⟨lt_of_le_of_lt hinv hlt, hlt⟩
    · intro h
      exact decide_eq_true h.2
  · rw [pollIteration_lastOT]
    by_cases hf : (newOvertimeCheck upd.currentPeriod st.lastOvertimePeriod
        && cfg.types.contains "overtime") = true
    · rw [if_pos hf, if_pos hf, hp]
      rfl
    · rw [if_neg hf, if_neg hf]
  · intro game polls
    have hchain := overtimeFirings_chain cfg polls (initState game)
    refine ⟨hchain, ?_⟩
    have hpw := List.chain_iff_pairwise.mp hchain
    exact List.Pairwise.imp (fun hab => ne_of_lt hab) (List.pairwise_cons.mp hpw).2

/-- Concrete configuration for the C3 witness: only the overtime category. -/
def cfgOTw : Config := { types := ["overtime"] }

/-- Concrete 4-period game for the C3 witness. -/
def gameOTw : Game :=
  { id := "g-ot"
    numberOfPeriods := 4
    sport := "football" }

/-- Concrete update observing period 5 for the C3 witness. -/
def updOTw : GameUpdate := { currentPeriod := "5" }

/-- Witness for C3: an enabled overtime category, a 4-period game and an
observed period `"5"` satisfy every hypothesis, and the firings of the
two-poll run re-observing period 5 are duplicate-free (the second
observation does not refire). -/
theorem overtimeEdgeTriggerWitness :
    ((newOvertimeCheck updOTw.currentPeriod (initState gameOTw).lastOvertimePeriod
        && cfgOTw.types.contains "overtime") = true
      ↔ (initState gameOTw).game.numberOfPeriods < 5
          ∧ (initState gameOTw).lastOvertimePeriod < 5) ∧
    (overtimeFirings cfgOTw (initState gameOTw) [some updOTw, some updOTw]).Nodup := by
  have h := overtimeEdgeTrigger cfgOTw (by decide) (initState gameOTw) updOTw 5
    (by decide) (by decide)
  exact ⟨h.1, (h.2.2.2 gameOTw [some updOTw, some updOTw]).2⟩

/-- Concrete game for C1: the away team is the designated underdog, baseline
scores 0-0. -/
def gameC1 : Game :=
  { id := "g-c1"
    homeTeam := { id := "H", abbreviation := "FAV", displayName := "Favorites" }
    awayTeam := { id := "A", abbreviation := "DOG", displayName := "Underdogs",
                  underdog := true }
    currentScore := [("H", "0"), ("A", "0")]
    sport := "football"
    numberOfPeriods := 4 }

/-- Concrete configuration for C1: only the underdog category enabled. -/
def cfgC1 : Config := { types := ["underdog"] }

/-- First C1 poll: the underdog takes the lead 7-0. -/
def updC1a : GameUpdate :=
  { currentScore := [("H", "0"), ("A", "7")], currentPeriod := "2",
    displayClock := "10:00" }

/-- Second C1 poll: the score changes again (10-0) while the underdog is
still ahead. -/
def updC1b : GameUpdate :=
  { currentScore := [("H", "0"), ("A", "10")], currentPeriod := "3",
    displayClock := "5:00" }

/-- C1 (code-bug exhibit): after the underdog takes the lead on the first
poll, a later poll on which the score changes while the underdog merely
remains ahead appends a second underdog notification — the monitor is
level-triggered per score change, not edge-triggered, contradicting the
claim and the source's own comment at game_workflow.go line 138. -/
theorem underdogRefiresWhileLeading :
    ((runMonitor cfgC1 (initState gameC1) [some updC1a, some updC1b]).2.map
        (fun ns => ns.map (fun n => n.title)))
      = [["Team Chaos!"], ["Team Chaos!"]] ∧
    (runMonitor cfgC1 (initState gameC1) [some updC1a]).1.underdogWinning = true :=
  ⟨rfl, rfl⟩

/-- Concrete game for C4: the away team is the designated underdog. -/
def gameC4 : Game :=
  { id := "g-c4"
    homeTeam := { id := "H", abbreviation := "FAV", displayName := "Favorites" }
    awayTeam := { id := "A", abbreviation := "DOG", displayName := "Underdogs",
                  underdog := true }
    currentScore := [("H", "3"), ("A", "0")]
    sport := "football"
    numberOfPeriods := 4 }

/-- Concrete configuration for C4: only the underdog category enabled. -/
def cfgC4 : Config := { types := ["underdog"] }

/-- C4 poll: home 10, away (underdog) 9 — the underdog trails numerically. -/
def updC4 : GameUpdate :=
  { currentScore := [("H", "10"), ("A", "9")], currentPeriod := "4",
    displayClock := "1:00" }

/-- C4 (code-bug exhibit): with the underdog trailing 9 to 10, the monitor
nevertheless marks the underdog as leading and fires the underdog alert,
because the source compares the score strings with Go string comparison and
`"9" > "10"` lexicographically — while the numeric readings are 9 and 10
with 9 < 10, so the claim's numeric interpretation says "not leading". -/
theorem underdogStringCompareBug :
    ((pollIteration cfgC4 (initState gameC4) (some updC4)).2.map (fun n => n.title))
      = ["Team Chaos!"] ∧
    (pollIteration cfgC4 (initState gameC4) (some updC4)).1.underdogWinning = true ∧
    goStrGt (mapGetD updC4.currentScore "A") (mapGetD updC4.currentScore "H") = true ∧
    goAtoi (mapGetD updC4.currentScore "A") = some 9 ∧
    goAtoi (mapGetD updC4.currentScore "H") = some 10 ∧
    (9 : Int) < 10 :=
  ⟨rfl, rfl, by decide, by decide, by decide, by decide⟩

/-- Concrete game for C9: period 7 of a 4-period game, i.e. the third
overtime. -/
def gameC9 : Game :=
  { id := "g-c9"
    currentPeriod := "7"
    numberOfPeriods := 4 }

/-- C9 counterexample: for the third overtime the source renders
`"TRIPLE OT"`, not the claimed `"Triple OT"`. -/
theorem tripleOvertimeLabelCase :
    goAtoi gameC9.currentPeriod = some 7 ∧
    gameC9.numberOfPeriods = 4 ∧
    overtimeLabel (7 - 4) = "TRIPLE OT" ∧
    ("TRIPLE OT" : String) ≠ "Triple OT" ∧
    (buildOvertimeNotification gameC9).title = "TRIPLE OT!" :=
  ⟨by decide, rfl, by decide, by decide, rfl⟩

/-- C9 amended: for a numeric period `p` above the regulation count, the
overtime notification's label maps `n = p - regulationPeriods` to `OT`,
`Double OT`, `TRIPLE OT` (upper-case in the source) and `Nth OT` for
`n ≥ 4`, and the notification's title is that label followed by `!`. -/
theorem overtimeLabelAmended (g : Game) (p : Int)
    (hp : goAtoi g.currentPeriod = some p) (hreg : g.numberOfPeriods < p) :
    (buildOvertimeNotification g).title
        = overtimeLabel (p - g.numberOfPeriods) ++ "!" ∧
    (p - g.numberOfPeriods = 1 → overtimeLabel (p - g.numberOfPeriods) = "OT") ∧
    (p - g.numberOfPeriods = 2 → overtimeLabel (p - g.numberOfPeriods) = "Double OT") ∧
    (p - g.numberOfPeriods = 3 → overtimeLabel (p - g.numberOfPeriods) = "TRIPLE OT") ∧
    (4 ≤ p - g.numberOfPeriods →
      overtimeLabel (p - g.numberOfPeriods)
        = toString (p - g.numberOfPeriods) ++ "th OT") := by
  refine ⟨?_, ?_, ?_, ?_, ?_⟩
  · unfold buildOvertimeNotification
    rw [hp]
  · intro h; rw [h]; decide
  · intro h; rw [h]; decide
  · intro h; rw [h]; decide
  · intro h
    have h1 : ¬ (p - g.numberOfPeriods = 1) := by omega
    have h2 : ¬ (p - g.numberOfPeriods = 2) := by omega
    have h3 : ¬ (p - g.numberOfPeriods = 3) := by omega
    simp [overtimeLabel, h1, h2, h3]

/-- Witness for C9 at period 7 of a 4-period game: the title is the third
overtime label followed by `!`. -/
theorem overtimeLabelAmendedWitness :
    (buildOvertimeNotification gameC9).title
        = overtimeLabel (7 - gameC9.numberOfPeriods) ++ "!" ∧
    (7 - gameC9.numberOfPeriods = 3 →
      overtimeLabel (7 - gameC9.numberOfPeriods) = "TRIPLE OT") := by
  have h := overtimeLabelAmended gameC9 7 (by decide) (by decide)
  exact ⟨h.1, h.2.2.2.1⟩

example : goAtoi "5" = some 5 := by decide
example : goAtoi "" = none := by decide
example : goAtoi "-12" = some (-12) := by decide
example : goAtoi "3a" = none := by decide
example : goStrGt "9" "10" = true := by decide
example : goStrGt "10" "9" = false := by decide
example : getPeriodStr 4 "hockey" = "Q4" := by decide
example : overtimeLabel 3 = "TRIPLE OT" := by decide
example : overtimeLabel 5 = "5th OT" := by decide
